import Mathlib

/-!
Verification of the adaptive learning-mode recommendation engine of the
MINDMORPH backend (`Server/ml-services.js`).

Shallow embedding conventions:
* JavaScript numbers are modelled as rationals (`ℚ`); every arithmetic
  expression in scope is a finite decimal blend, so rational arithmetic is the
  intended exact semantics of the formulas.
* Nullable database fields (`quiz_score`, `focus_level`, ...) are `Option ℚ`;
  the source's `parseFloat(x) || 0` / `parseInt(x) || 0` defaulting is
  modelled by `Option.getD 0`.
* The two Supabase reads are modelled by `Except Unit (List _)` arguments:
  `.error` is a fetch whose `error` field is non-null (in which case Supabase
  returns `data = null`), `.ok l` is a successful fetch returning the rows `l`.
  A thrown JS exception caught by the surrounding `try/catch` corresponds to
  returning the catch-branch fallback value; the Lean functions are total, so
  "never throws to the caller" is captured by totality.
* `Math.round` is modelled by `jsRound` (round half toward positive infinity),
  `Math.min`/`Math.max` by `min`/`max` on `ℚ`.
* The presentation-only `reasoning` string of the recommendation result is not
  modelled (no claim mentions it); the `factors` strings of the performance
  predictor are modelled because they distinguish its fallback branches.
-/

namespace MLServices

/-- JavaScript `Math.round`: round half toward positive infinity. -/
def jsRound (x : ℚ) : ℤ := Int.floor (x + 1/2)

/-- The three learning modalities handled by `modePerformance`. -/
inductive Mode where
  | visual
  | audio
  | text
deriving DecidableEq, Repr

/-- One row of the `activity_logs` table, restricted to the fields read by
`recommendLearningMode` / `predictPerformance`.  `activity_type` is the
modality string (nullable); the numeric fields are nullable numbers. -/
structure Activity where
  activity_type : Option String
  quiz_score : Option ℚ
  focus_level : Option ℚ
  reading_time : Option ℚ
  playback_time : Option ℚ
deriving DecidableEq, Repr

/-- One row of the `quiz_results` table, restricted to the fields read by
`recommendLearningMode`. -/
structure QuizResult where
  learning_type : Option String
  score : Option ℚ
deriving DecidableEq, Repr

/-- One per-modality tally of the `modePerformance` object
(`{ totalScore: 0, totalSessions: 0, avgFocus: 0, engagementScore: 0,
totalReadingTime: 0, totalPlaybackTime: 0 }`).  `avgFocus` is, as in the
source, a running *sum* of focus levels during aggregation. -/
structure ModePerformance where
  totalScore : ℚ
  totalSessions : ℕ
  avgFocus : ℚ
  engagementScore : ℚ
  totalReadingTime : ℚ
  totalPlaybackTime : ℚ
deriving DecidableEq, Repr

/-- The zero-initialised tally. -/
def ModePerformance.init : ModePerformance :=
  { totalScore := 0, totalSessions := 0, avgFocus := 0, engagementScore := 0
    totalReadingTime := 0, totalPlaybackTime := 0 }

/-- The `modePerformance` object: one tally per modality key. -/
structure Perf3 where
  visual : ModePerformance
  audio : ModePerformance
  text : ModePerformance
deriving DecidableEq, Repr

/-- Zero-initialised `modePerformance` (lines 72–76 of the source). -/
def Perf3.init : Perf3 :=
  { visual := ModePerformance.init, audio := ModePerformance.init
    text := ModePerformance.init }

/-- Property lookup `modePerformance[mode]` for a recognised key. -/
def Perf3.get (p : Perf3) : Mode → ModePerformance
  | .visual => p.visual
  | .audio => p.audio
  | .text => p.text

/-- Property update for a recognised key. -/
def Perf3.set (p : Perf3) : Mode → ModePerformance → Perf3
  | .visual, mp => { p with visual := mp }
  | .audio, mp => { p with audio := mp }
  | .text, mp => { p with text := mp }

/-- `String.prototype.toLowerCase`, modelled character by character (the
modality strings in scope are ASCII, where this agrees with the JS method). -/
def jsToLower (s : String) : String := String.mk (s.data.map Char.toLower)

/-- `activity.activity_type?.toLowerCase() || "visual"`: a null/undefined or
empty modality string defaults to `"visual"`; otherwise the lowercased string
is used as the lookup key. -/
def resolveModeString (s : Option String) : String :=
  match s with
  | none => "visual"
  | some str => if jsToLower str = "" then "visual" else jsToLower str

/-- `modePerformance[mode]` key membership: only the three initialised keys
denote a tally; any other string misses the object and the record is skipped. -/
def modeOfString (s : String) : Option Mode :=
  if s = "visual" then some .visual
  else if s = "audio" then some .audio
  else if s = "text" then some .text
  else none

/-- Per-activity engagement (lines 93–102): reading time for text, playback
count for audio, focus for visual, `0` otherwise. -/
def activityEngagement (m : Mode) (readingTime playbackTime focusLevel : ℚ) : ℚ :=
  if m = .text ∧ readingTime > 0 then min 100 (readingTime / 10)
  else if m = .audio ∧ playbackTime > 0 then min 100 (playbackTime * 20)
  else if m = .visual ∧ focusLevel > 0 then focusLevel
  else 0

/-- The body of `activities.forEach` (lines 79–104): resolve the modality
string, and if it denotes one of the three tallies, accumulate the record's
defaulted numeric fields into that tally. -/
def processActivity (p : Perf3) (a : Activity) : Perf3 :=
  match modeOfString (resolveModeString a.activity_type) with
  | none => p
  | some m =>
      let quizScore := a.quiz_score.getD 0
      let focusLevel := a.focus_level.getD 0
      let readingTime := a.reading_time.getD 0
      let playbackTime := a.playback_time.getD 0
      let mp := p.get m
      p.set m
        { totalScore := mp.totalScore + quizScore
          totalSessions := mp.totalSessions + 1
          avgFocus := mp.avgFocus + focusLevel
          totalReadingTime := mp.totalReadingTime + readingTime
          totalPlaybackTime := mp.totalPlaybackTime + playbackTime
          engagementScore :=
            mp.engagementScore + activityEngagement m readingTime playbackTime focusLevel }

/-- The body of `quizResults.forEach` (lines 107–128): resolve the modality
from `learning_type`, accumulate the score, a synthetic focus proxy, and a
score-capped engagement into the tally. -/
def processQuiz (p : Perf3) (q : QuizResult) : Perf3 :=
  match modeOfString (resolveModeString q.learning_type) with
  | none => p
  | some m =>
      let quizScore := q.score.getD 0
      let estimatedFocus : ℚ :=
        if quizScore ≥ 80 then 85 else if quizScore ≥ 60 then 70 else 50
      let mp := p.get m
      p.set m
        { mp with
          totalScore := mp.totalScore + quizScore
          totalSessions := mp.totalSessions + 1
          avgFocus := mp.avgFocus + estimatedFocus
          engagementScore := mp.engagementScore + min 100 quizScore }

/-- The Mode Performance Aggregator: both `forEach` loops in order. -/
def aggregate (activities : List Activity) (quizResults : List QuizResult) : Perf3 :=
  quizResults.foldl processQuiz (activities.foldl processActivity Perf3.init)

/-- The combined `modeScores[mode]` assignment of the ranking loop (lines
139–165): the 0.4/0.3/0.3 weighted composite when the modality has sessions,
`0` otherwise. -/
def modeScore (mp : ModePerformance) : ℚ :=
  if 0 < mp.totalSessions then
    (mp.totalScore / (mp.totalSessions : ℚ)) * 0.4
      + (mp.avgFocus / (mp.totalSessions : ℚ)) * 0.3
      + (mp.engagementScore / (mp.totalSessions : ℚ)) * 0.3
  else 0

/-- Average quiz score of a tally, `0` when it has no sessions (the ranking
loop only reads it inside the `totalSessions > 0` branch, where the two
definitions agree). -/
def avgScoreOf (mp : ModePerformance) : ℚ :=
  if 0 < mp.totalSessions then mp.totalScore / (mp.totalSessions : ℚ) else 0

/-- The mutable state of the ranking loop: `bestMode`/`bestScore` for the
weighted pick, `bestPerformingMode`/`bestPerformingScore` for the raw
average-quiz-score pick. -/
structure RankState where
  bestMode : Mode
  bestScore : ℚ
  bestPerformingMode : Mode
  bestPerformingScore : ℚ
deriving DecidableEq, Repr

/-- One iteration of `Object.keys(modePerformance).forEach` (lines 139–165). -/
def rankStep (st : RankState) (m : Mode) (mp : ModePerformance) : RankState :=
  if 0 < mp.totalSessions then
    let avgScore := mp.totalScore / (mp.totalSessions : ℚ)
    let avgFocus := mp.avgFocus / (mp.totalSessions : ℚ)
    let avgEngagement := mp.engagementScore / (mp.totalSessions : ℚ)
    let weightedScore := avgScore * 0.4 + avgFocus * 0.3 + avgEngagement * 0.3
    let st1 :=
      if weightedScore > st.bestScore then
        { st with bestMode := m, bestScore := weightedScore }
      else st
    if avgScore > st1.bestPerformingScore then
      { st1 with bestPerformingMode := m, bestPerformingScore := avgScore }
    else st1
  else st

/-- The full ranking loop, in the object's key insertion order
`visual, audio, text`, starting from `bestMode = "visual"`, `bestScore = 0`,
`bestPerformingMode = "visual"`, `bestPerformingScore = 0`. -/
def rank (p : Perf3) : RankState :=
  rankStep (rankStep (rankStep ⟨.visual, 0, .visual, 0⟩ .visual p.visual) .audio p.audio)
    .text p.text

/-- Line 213: `bestPerformingScore > 0 ? bestPerformingMode : bestMode`. -/
def pickBestPerforming (st : RankState) : Mode :=
  if st.bestPerformingScore > 0 then st.bestPerformingMode else st.bestMode

/-- Confidence composition (lines 167–175). -/
def confidenceFrom (totalSessions recommendedSessions : ℕ) (bestScore : ℚ) : ℚ :=
  let dataQuality := min (0.3 + (totalSessions : ℚ) * 0.01) 0.4
  let modeConfidence := min (0.3 + (recommendedSessions : ℚ) * 0.02) 0.4
  let scoreConfidence := if bestScore > 0 then min 0.2 (bestScore / 500) else 0.1
  min (dataQuality + modeConfidence + scoreConfidence) 0.95

/-- One per-mode entry of the returned `modeStats` (lines 216–238):
`totalScore`, `totalSessions`, and the rounded average focus. -/
structure ModeStats where
  totalScore : ℚ
  totalSessions : ℕ
  avgFocus : ℤ
deriving DecidableEq, Repr

/-- The rounded per-mode stats built from a tally. -/
def statsOf (mp : ModePerformance) : ModeStats :=
  { totalScore := mp.totalScore
    totalSessions := mp.totalSessions
    avgFocus :=
      if 0 < mp.totalSessions then jsRound (mp.avgFocus / (mp.totalSessions : ℚ)) else 0 }

/-- The `modeStats` object of the result. -/
structure Stats3 where
  visual : ModeStats
  audio : ModeStats
  text : ModeStats
deriving DecidableEq, Repr

/-- The all-zero `modeStats` of both fallback results. -/
def Stats3.zero : Stats3 :=
  { visual := ⟨0, 0, 0⟩, audio := ⟨0, 0, 0⟩, text := ⟨0, 0, 0⟩ }

/-- `RecommendationResult` minus the presentation-only `reasoning` string. -/
structure Recommendation where
  recommendedMode : Mode
  bestPerformingMode : Mode
  confidence : ℚ
  modeStats : Stats3
deriving DecidableEq, Repr

/-- The "no learning history" default returned when both fetched lists are
empty (lines 56–69). -/
def noHistoryResult : Recommendation :=
  { recommendedMode := .visual, bestPerformingMode := .visual
    confidence := 0.3, modeStats := Stats3.zero }

/-- The catch-branch default returned when the activity fetch throws
(lines 240–253). -/
def errorResult : Recommendation :=
  { recommendedMode := .visual, bestPerformingMode := .visual
    confidence := 0.3, modeStats := Stats3.zero }

/-- `recommendLearningMode` (lines 19–254).  The first argument models the
`activity_logs` fetch (`.error` throws into the catch branch), the second the
`quiz_results` fetch (`.error` only logs a warning and leaves `quizResults`
null, treated as empty everywhere downstream). -/
def recommendLearningMode (activityFetch : Except Unit (List Activity))
    (quizFetch : Except Unit (List QuizResult)) : Recommendation :=
  match activityFetch with
  | .error _ => errorResult
  | .ok activities =>
      let quizResults := match quizFetch with | .error _ => [] | .ok l => l
      if activities.isEmpty ∧ quizResults.isEmpty then noHistoryResult
      else
        let perf := aggregate activities quizResults
        let st := rank perf
        let totalSessions := activities.length + quizResults.length
        let recommendedSessions := (perf.get st.bestMode).totalSessions
        { recommendedMode := st.bestMode
          bestPerformingMode := pickBestPerforming st
          confidence := confidenceFrom totalSessions recommendedSessions st.bestScore
          modeStats :=
            { visual := statsOf perf.visual, audio := statsOf perf.audio
              text := statsOf perf.text } }

/-- `calculateAdaptiveDifficulty` (lines 523–539). -/
def calculateAdaptiveDifficulty (recentScores : List ℚ)
    (currentDifficulty : String) : String :=
  if recentScores.isEmpty then currentDifficulty
  else
    let avgScore := recentScores.sum / (recentScores.length : ℚ)
    let lastScore := recentScores.headD 0
    if avgScore > 85 ∧ lastScore > 80 then "hard"
    else if avgScore < 60 ∨ lastScore < 50 then "easy"
    else "medium"

/-- `calculateVariance` (lines 375–379). -/
def calculateVariance (numbers : List ℚ) : ℚ :=
  let mean := numbers.sum / (numbers.length : ℚ)
  ((numbers.map fun n => (n - mean) ^ 2).sum) / (numbers.length : ℚ)

/-- The result record of `predictPerformance`; the `factors` strings
distinguish its fallback branches from the computed branch. -/
structure PredictResult where
  predictedScore : ℚ
  confidence : ℚ
  factors : List String
deriving DecidableEq, Repr

/-- `predictPerformance` (lines 317–373).  The argument models the
`activity_logs` fetch; `.error` throws into the catch branch. -/
def predictPerformance (activityFetch : Except Unit (List Activity)) : PredictResult :=
  match activityFetch with
  | .error _ => { predictedScore := 65, confidence := 0.3, factors := ["Error in prediction"] }
  | .ok activities =>
      if activities.length < 5 then
        { predictedScore := 65, confidence := 0.3, factors := ["Insufficient historical data"] }
      else
        let scores := activities.filterMap fun a => a.quiz_score
        if scores.isEmpty then
          { predictedScore := 65, confidence := 0.3, factors := [] }
        else
          let recentAvg := (scores.take 5).sum / ((min 5 scores.length : ℕ) : ℚ)
          let olderAvg :=
            if scores.length > 5 then
              ((scores.drop 5).take 5).sum / ((min 5 (scores.length - 5) : ℕ) : ℚ)
            else recentAvg
          let trend := recentAvg - olderAvg
          let predictedScore := max 0 (min 100 (recentAvg + trend * 0.5))
          let variance := calculateVariance scores
          let confidence := max 0.3 (min 0.9 (1 - variance / 1000))
          { predictedScore := (jsRound predictedScore : ℚ)
            confidence := confidence
            factors :=
              ["Recent average: " ++ toString (jsRound recentAvg) ++ "%",
               "Trend: " ++ (if trend > 0 then "improving" else "declining"),
               "Data points: " ++ toString scores.length] }

/-- The data-model range invariant (§3 of the spec: scores and focus in
0–100, cumulative counters) restricted to what the ranking facts need: the
record's defaulted numeric fields are nonnegative. -/
def Activity.Nonneg (a : Activity) : Prop :=
  0 ≤ a.quiz_score.getD 0 ∧ 0 ≤ a.focus_level.getD 0
    ∧ 0 ≤ a.reading_time.getD 0 ∧ 0 ≤ a.playback_time.getD 0

/-- Range invariant for a quiz-result row: its defaulted score is
nonnegative. -/
def QuizResult.Nonneg (q : QuizResult) : Prop := 0 ≤ q.score.getD 0

/-- A tally with nonnegative accumulated sums (what aggregation of in-range
records produces). -/
def ModePerformance.Nonneg (mp : ModePerformance) : Prop :=
  0 ≤ mp.totalScore ∧ 0 ≤ mp.avgFocus ∧ 0 ≤ mp.engagementScore

/-- All three tallies have nonnegative sums. -/
def Perf3.Nonneg (p : Perf3) : Prop :=
  p.visual.Nonneg ∧ p.audio.Nonneg ∧ p.text.Nonneg

/-- Stated from the claim's words (refinement target for the Performance
Predictor): the mean of the five most recent scores. -/
def claimRecentAvg (scores : List ℚ) : ℚ := (scores.take 5).sum / 5

/-- Stated from the claim's words: the mean of the scores at index 5–9,
equal to `claimRecentAvg` when that window is absent. -/
def claimOlderAvg (scores : List ℚ) : ℚ :=
  if 5 < scores.length then
    ((scores.drop 5).take 5).sum / (((min 5 (scores.length - 5)) : ℕ) : ℚ)
  else claimRecentAvg scores

/-- Stated from the claim's words: `clamp(recentAvg + trend*0.5, 0, 100)`
with `trend = recentAvg - olderAvg`. -/
def claimPredicted (scores : List ℚ) : ℚ :=
  max 0 (min 100
    (claimRecentAvg scores + (claimRecentAvg scores - claimOlderAvg scores) * 0.5))

/-- Characterisation of `jsRound` used to evaluate it on concrete values. -/
theorem jsRound_eq (x : ℚ) (n : ℤ) (h1 : (n : ℚ) ≤ x + 1/2) (h2 : x + 1/2 < n + 1) :
    jsRound x = n := by
  rw [jsRound]
  exact Int.floor_eq_iff.mpr ⟨h1, by exact_mod_cast h2⟩

/-- A modality without sessions has weighted score `0`. -/
theorem modeScore_of_no_sessions (mp : ModePerformance) (h : mp.totalSessions = 0) :
    modeScore mp = 0 := by
  simp [modeScore, h]

/-- A modality without sessions has average quiz score `0`. -/
theorem avgScoreOf_of_no_sessions (mp : ModePerformance) (h : mp.totalSessions = 0) :
    avgScoreOf mp = 0 := by
  simp [avgScoreOf, h]

/-- Nonnegative tallies have nonnegative weighted scores. -/
theorem modeScore_nonneg (mp : ModePerformance) (h : mp.Nonneg) : 0 ≤ modeScore mp := by
  obtain ⟨h1, h2, h3⟩ := h
  rw [modeScore]
  split_ifs with hs
  · have hc : (0 : ℚ) < (mp.totalSessions : ℚ) := by exact_mod_cast hs
    have d1 := div_nonneg h1 hc.le
    have d2 := div_nonneg h2 hc.le
    have d3 := div_nonneg h3 hc.le
    have e1 : (0:ℚ) ≤ mp.totalScore / (mp.totalSessions : ℚ) * 0.4 :=
      mul_nonneg d1 (by norm_num)
    have e2 : (0:ℚ) ≤ mp.avgFocus / (mp.totalSessions : ℚ) * 0.3 :=
      mul_nonneg d2 (by norm_num)
    have e3 : (0:ℚ) ≤ mp.engagementScore / (mp.totalSessions : ℚ) * 0.3 :=
      mul_nonneg d3 (by norm_num)
    linarith
  · exact le_refl 0

/-- Nonnegative tallies have nonnegative average quiz scores. -/
theorem avgScoreOf_nonneg (mp : ModePerformance) (h : mp.Nonneg) : 0 ≤ avgScoreOf mp := by
  rw [avgScoreOf]
  split_ifs with hs
  · have hc : (0 : ℚ) < (mp.totalSessions : ℚ) := by exact_mod_cast hs
    exact div_nonneg h.1 hc.le
  · exact le_refl 0

/-- Per-record engagement of a record with nonnegative signals is
nonnegative. -/
theorem activityEngagement_nonneg (m : Mode) (rt pb fl : ℚ)
    (hrt : 0 ≤ rt) (hpb : 0 ≤ pb) (hfl : 0 ≤ fl) :
    0 ≤ activityEngagement m rt pb fl := by
  rw [activityEngagement]
  split_ifs with h1 h2 h3
  · exact le_min (by norm_num) (div_nonneg hrt (by norm_num))
  · exact le_min (by norm_num) (mul_nonneg hpb (by norm_num))
  · exact hfl
  · exact le_refl 0

/-- The composed confidence is always within `[0, 0.95]`. -/
theorem confidenceFrom_bounds (t r : ℕ) (b : ℚ) :
    0 ≤ confidenceFrom t r b ∧ confidenceFrom t r b ≤ 0.95 := by
  rw [confidenceFrom]
  constructor
  · apply le_min _ (by norm_num)
    have d1 : (0:ℚ) ≤ min (0.3 + (t : ℚ) * 0.01) 0.4 :=
      le_min (by positivity) (by norm_num)
    have d2 : (0:ℚ) ≤ min (0.3 + (r : ℚ) * 0.02) 0.4 :=
      le_min (by positivity) (by norm_num)
    have d3 : (0:ℚ) ≤ if b > 0 then min 0.2 (b / 500) else 0.1 := by
      split_ifs with hb
      · exact le_min (by norm_num) (div_nonneg hb.le (by norm_num))
      · norm_num
    linarith
  · exact min_le_right _ _

/-- One ranking iteration, in closed form: starting from a state with
nonnegative best scores and folding in a nonnegative tally, the step keeps
the running maxima and replaces a champion exactly on strict improvement. -/
theorem rankStep_eq (st : RankState) (m : Mode) (mp : ModePerformance)
    (hb : 0 ≤ st.bestScore) (hp : 0 ≤ st.bestPerformingScore) :
    rankStep st m mp =
      { bestMode := if modeScore mp > st.bestScore then m else st.bestMode
        bestScore := max st.bestScore (modeScore mp)
        bestPerformingMode :=
          if avgScoreOf mp > st.bestPerformingScore then m else st.bestPerformingMode
        bestPerformingScore := max st.bestPerformingScore (avgScoreOf mp) } := by
  by_cases hs : 0 < mp.totalSessions
  · have hws : modeScore mp
        = mp.totalScore / (mp.totalSessions : ℚ) * 0.4
          + mp.avgFocus / (mp.totalSessions : ℚ) * 0.3
          + mp.engagementScore / (mp.totalSessions : ℚ) * 0.3 := by
      rw [modeScore, if_pos hs]
    have hav : avgScoreOf mp = mp.totalScore / (mp.totalSessions : ℚ) := by
      rw [avgScoreOf, if_pos hs]
    simp only [rankStep, if_pos hs]
    rw [← hws, ← hav]
    by_cases h1 : modeScore mp > st.bestScore
    · rw [if_pos h1]
      dsimp only
      by_cases h2 : avgScoreOf mp > st.bestPerformingScore
      · rw [if_pos h2, max_eq_right h1.le, max_eq_right h2.le]
        simp [h1, h2]
      · rw [if_neg h2, max_eq_right h1.le, max_eq_left (not_lt.mp h2)]
        simp [h1, h2]
    · rw [if_neg h1]
      by_cases h2 : avgScoreOf mp > st.bestPerformingScore
      · rw [if_pos h2, max_eq_left (not_lt.mp h1), max_eq_right h2.le]
        simp [h1, h2]
      · rw [if_neg h2, max_eq_left (not_lt.mp h1), max_eq_left (not_lt.mp h2)]
        simp [h1, h2]
  · have hms : modeScore mp = 0 :=
      modeScore_of_no_sessions mp (Nat.eq_zero_of_not_pos hs)
    have has : avgScoreOf mp = 0 :=
      avgScoreOf_of_no_sessions mp (Nat.eq_zero_of_not_pos hs)
    simp only [rankStep, if_neg hs, hms, has]
    rw [if_neg (not_lt.mpr hb), if_neg (not_lt.mpr hp), max_eq_left hb, max_eq_left hp]

/-- The whole ranking loop in closed form for nonnegative tallies: both
champions are the first modality (in the order visual, audio, text) attaining
the maximum of its score, and both best scores are that maximum. -/
theorem rank_closed (p : Perf3) (hn : p.Nonneg) :
    rank p =
      { bestMode :=
          if modeScore p.text > max (modeScore p.visual) (modeScore p.audio) then Mode.text
          else if modeScore p.audio > modeScore p.visual then Mode.audio else Mode.visual
        bestScore := max (max (modeScore p.visual) (modeScore p.audio)) (modeScore p.text)
        bestPerformingMode :=
          if avgScoreOf p.text > max (avgScoreOf p.visual) (avgScoreOf p.audio) then Mode.text
          else if avgScoreOf p.audio > avgScoreOf p.visual then Mode.audio else Mode.visual
        bestPerformingScore :=
          max (max (avgScoreOf p.visual) (avgScoreOf p.audio)) (avgScoreOf p.text) } := by
  obtain ⟨h1, h2, h3⟩ := hn
  have nv := modeScore_nonneg p.visual h1
  have nav := avgScoreOf_nonneg p.visual h1
  have e1 : rankStep ⟨.visual, 0, .visual, 0⟩ .visual p.visual
      = ⟨.visual, modeScore p.visual, .visual, avgScoreOf p.visual⟩ := by
    rw [rankStep_eq _ _ _ le_rfl le_rfl]
    simp [max_eq_right nv, max_eq_right nav]
  have e2 : rankStep (⟨.visual, modeScore p.visual, .visual, avgScoreOf p.visual⟩ : RankState)
        .audio p.audio
      = ⟨if modeScore p.audio > modeScore p.visual then .audio else .visual,
         max (modeScore p.visual) (modeScore p.audio),
         if avgScoreOf p.audio > avgScoreOf p.visual then .audio else .visual,
         max (avgScoreOf p.visual) (avgScoreOf p.audio)⟩ :=
    rankStep_eq _ _ _ nv nav
  have e3 := rankStep_eq
    (⟨if modeScore p.audio > modeScore p.visual then .audio else .visual,
      max (modeScore p.visual) (modeScore p.audio),
      if avgScoreOf p.audio > avgScoreOf p.visual then .audio else .visual,
      max (avgScoreOf p.visual) (avgScoreOf p.audio)⟩ : RankState)
    .text p.text (le_trans nv (le_max_left _ _)) (le_trans nav (le_max_left _ _))
  rw [rank, e1, e2, e3]

/-- For nonnegative tallies, the loop's final `bestScore` is exactly the
weighted score of the selected `bestMode`. -/
theorem rank_bestScore_eq (p : Perf3) (hn : p.Nonneg) :
    (rank p).bestScore = modeScore (p.get (rank p).bestMode) := by
  rw [rank_closed p hn]
  dsimp only
  by_cases ht : modeScore p.text > max (modeScore p.visual) (modeScore p.audio)
  · rw [if_pos ht, max_eq_right ht.le]
    rfl
  · rw [if_neg ht, max_eq_left (not_lt.mp ht)]
    by_cases ha : modeScore p.audio > modeScore p.visual
    · rw [if_pos ha, max_eq_right ha.le]
      rfl
    · rw [if_neg ha, max_eq_left (not_lt.mp ha)]
      rfl

/-- Folding one in-range activity record into nonnegative tallies keeps them
nonnegative. -/
theorem processActivity_nonneg (p : Perf3) (a : Activity)
    (hp : p.Nonneg) (ha : a.Nonneg) : (processActivity p a).Nonneg := by
  obtain ⟨ha1, ha2, ha3, ha4⟩ := ha
  obtain ⟨⟨v1, v2, v3⟩, ⟨b1, b2, b3⟩, ⟨t1, t2, t3⟩⟩ := hp
  rw [processActivity]
  cases hmo : modeOfString (resolveModeString a.activity_type) with
  | none => exact ⟨⟨v1, v2, v3⟩, ⟨b1, b2, b3⟩, ⟨t1, t2, t3⟩⟩
  | some m =>
      have heng := activityEngagement_nonneg m (a.reading_time.getD 0)
        (a.playback_time.getD 0) (a.focus_level.getD 0) ha3 ha4 ha2
      cases m <;>
        simp only [Perf3.set, Perf3.get, Perf3.Nonneg, ModePerformance.Nonneg] <;>
        refine ⟨⟨?_, ?_, ?_⟩, ⟨?_, ?_, ?_⟩, ⟨?_, ?_, ?_⟩⟩ <;>
        linarith

/-- Folding one in-range quiz result into nonnegative tallies keeps them
nonnegative. -/
theorem processQuiz_nonneg (p : Perf3) (q : QuizResult)
    (hp : p.Nonneg) (hq : q.Nonneg) : (processQuiz p q).Nonneg := by
  rw [QuizResult.Nonneg] at hq
  obtain ⟨⟨v1, v2, v3⟩, ⟨b1, b2, b3⟩, ⟨t1, t2, t3⟩⟩ := hp
  have hf : (0:ℚ) ≤ if q.score.getD 0 ≥ 80 then 85
      else if q.score.getD 0 ≥ 60 then 70 else (50:ℚ) := by
    split_ifs <;> norm_num
  have he : (0:ℚ) ≤ min 100 (q.score.getD 0) := le_min (by norm_num) hq
  rw [processQuiz]
  cases hmo : modeOfString (resolveModeString q.learning_type) with
  | none => exact ⟨⟨v1, v2, v3⟩, ⟨b1, b2, b3⟩, ⟨t1, t2, t3⟩⟩
  | some m =>
      cases m <;>
        simp only [Perf3.set, Perf3.get, Perf3.Nonneg, ModePerformance.Nonneg] <;>
        refine ⟨⟨?_, ?_, ?_⟩, ⟨?_, ?_, ?_⟩, ⟨?_, ?_, ?_⟩⟩ <;>
        linarith

/-- Aggregating any lists of in-range records produces nonnegative tallies. -/
theorem aggregate_nonneg (activities : List Activity) (quizResults : List QuizResult)
    (ha : ∀ a ∈ activities, a.Nonneg) (hq : ∀ q ∈ quizResults, q.Nonneg) :
    (aggregate activities quizResults).Nonneg := by
  rw [aggregate]
  have hinit : Perf3.init.Nonneg := by
    refine ⟨⟨?_, ?_, ?_⟩, ⟨?_, ?_, ?_⟩, ⟨?_, ?_, ?_⟩⟩ <;> norm_num [Perf3.init, ModePerformance.init]
  have hacts : ∀ (l : List Activity) (p : Perf3), p.Nonneg → (∀ a ∈ l, a.Nonneg) →
      (l.foldl processActivity p).Nonneg := by
    intro l
    induction l with
    | nil => intro p hp _; exact hp
    | cons a as ih =>
        intro p hp hl
        exact ih _ (processActivity_nonneg p a hp (hl a (by simp)))
          (fun x hx => hl x (by simp [hx]))
  have hquiz : ∀ (l : List QuizResult) (p : Perf3), p.Nonneg → (∀ q ∈ l, q.Nonneg) →
      (l.foldl processQuiz p).Nonneg := by
    intro l
    induction l with
    | nil => intro p hp _; exact hp
    | cons q qs ih =>
        intro p hp hl
        exact ih _ (processQuiz_nonneg p q hp (hl q (by simp)))
          (fun x hx => hl x (by simp [hx]))
  exact hquiz _ _ (hacts _ _ hinit ha) hq

/-- C1: whenever the activity-store read fails, or both fetched lists are
empty, `recommendLearningMode` returns the fixed sentinel — `recommendedMode =
visual` (and `bestPerformingMode = visual`), `confidence = 0.3` exactly, and
all per-mode stat buckets zeroed.  The embedding is a total function, so no
exception can propagate to the caller on these paths. -/
theorem c1_sentinel_on_failure_or_empty (af : Except Unit (List Activity))
    (qf : Except Unit (List QuizResult))
    (h : (∃ e, af = Except.error e) ∨ (af = Except.ok [] ∧ qf = Except.ok [])) :
    (recommendLearningMode af qf).recommendedMode = Mode.visual
    ∧ (recommendLearningMode af qf).bestPerformingMode = Mode.visual
    ∧ (recommendLearningMode af qf).confidence = 0.3
    ∧ (recommendLearningMode af qf).modeStats = Stats3.zero := by
  rcases h with ⟨e, rfl⟩ | ⟨rfl, rfl⟩
  · exact ⟨rfl, rfl, rfl, rfl⟩
  · refine ⟨?_, ?_, ?_, ?_⟩ <;> rfl

/-- Witness for C1 at a failing store read. -/
theorem c1_sentinel_on_failure_or_empty_witness :
    (recommendLearningMode (Except.error ()) (Except.ok [])).recommendedMode = Mode.visual
    ∧ (recommendLearningMode (Except.error ()) (Except.ok [])).bestPerformingMode = Mode.visual
    ∧ (recommendLearningMode (Except.error ()) (Except.ok [])).confidence = 0.3
    ∧ (recommendLearningMode (Except.error ()) (Except.ok [])).modeStats = Stats3.zero :=
  c1_sentinel_on_failure_or_empty (Except.error ()) (Except.ok [])
    (Or.inl ⟨(), rfl⟩)

/-- C2: for every pair of fetch outcomes — error fallback and empty-history
paths included — the returned confidence lies in `[0, 0.95]`. -/
theorem c2_confidence_in_unit_band (af : Except Unit (List Activity))
    (qf : Except Unit (List QuizResult)) :
    0 ≤ (recommendLearningMode af qf).confidence
    ∧ (recommendLearningMode af qf).confidence ≤ 0.95 := by
  cases af with
  | error e =>
      constructor <;> norm_num [recommendLearningMode, errorResult]
  | ok activities =>
      rw [recommendLearningMode.eq_def]
      dsimp only
      split
      · constructor <;> norm_num [noHistoryResult]
      · exact confidenceFrom_bounds _ _ _

/-- C7: per-record engagement during aggregation is exactly the per-modality
clamp formula — `min(100, readingTime/10)` for text, `min(100, playback*20)`
for audio, the focus level for visual — contributing `0` when the relevant
signal is zero, with the three boundary values of the claim. -/
theorem c7_engagement_formulas (rt pb fl : ℚ)
    (hrt : 0 ≤ rt) (hpb : 0 ≤ pb) (hfl : 0 ≤ fl) :
    activityEngagement Mode.text rt pb fl = min 100 (rt / 10)
    ∧ activityEngagement Mode.audio rt pb fl = min 100 (pb * 20)
    ∧ activityEngagement Mode.visual rt pb fl = fl
    ∧ activityEngagement Mode.text 1000 0 0 = 100
    ∧ activityEngagement Mode.audio 0 5 0 = 100
    ∧ activityEngagement Mode.audio 0 6 0 = 100 := by
  refine ⟨?_, ?_, ?_, ?_, ?_, ?_⟩
  · rw [activityEngagement]
    rcases lt_or_eq_of_le hrt with h | h
    · rw [if_pos ⟨rfl, h⟩]
    · rw [if_neg (by simp [← h]), if_neg (by simp), if_neg (by simp), ← h]
      norm_num
  · rw [activityEngagement]
    rcases lt_or_eq_of_le hpb with h | h
    · rw [if_neg (by simp), if_pos ⟨rfl, h⟩]
    · rw [if_neg (by simp), if_neg (by simp [← h]), if_neg (by simp), ← h]
      norm_num
  · rw [activityEngagement]
    rcases lt_or_eq_of_le hfl with h | h
    · rw [if_neg (by simp), if_neg (by simp), if_pos ⟨rfl, h⟩]
    · rw [if_neg (by simp), if_neg (by simp), if_neg (by simp [← h]), ← h]
  · norm_num [activityEngagement]
  · norm_num [activityEngagement]
  · norm_num [activityEngagement]

/-- Witness for C7 at concrete signal values. -/
theorem c7_engagement_formulas_witness :
    activityEngagement Mode.text 30 7 0 = min 100 (30 / 10)
    ∧ activityEngagement Mode.audio 30 7 0 = min 100 (7 * 20)
    ∧ activityEngagement Mode.visual 30 7 0 = 0 := by
  have h := c7_engagement_formulas 30 7 0 (by norm_num) (by norm_num) (by norm_num)
  exact ⟨h.1, h.2.1, h.2.2.1⟩

/-- C8: the Difficulty Adapter returns the current difficulty on an empty
score window, otherwise buckets by the mean and the most recent score in the
claimed rule order, with the four spot-check values. -/
theorem c8_adaptive_difficulty (recentScores : List ℚ) (currentDifficulty : String) :
    calculateAdaptiveDifficulty recentScores currentDifficulty =
      (if recentScores.isEmpty then currentDifficulty
       else if recentScores.sum / (recentScores.length : ℚ) > 85
            ∧ recentScores.headD 0 > 80 then "hard"
       else if recentScores.sum / (recentScores.length : ℚ) < 60
            ∨ recentScores.headD 0 < 50 then "easy"
       else "medium")
    ∧ calculateAdaptiveDifficulty [90, 88, 85] "medium" = "hard"
    ∧ calculateAdaptiveDifficulty [40] "hard" = "easy"
    ∧ calculateAdaptiveDifficulty [70, 72] "medium" = "medium"
    ∧ calculateAdaptiveDifficulty [] "hard" = "hard" := by
  refine ⟨rfl, ?_, ?_, ?_, rfl⟩ <;> norm_num [calculateAdaptiveDifficulty]

/-- C3: for every aggregated history with in-range (nonnegative) tallies,
`recommendedMode` is the modality with the highest weighted composite score,
ties broken by the iteration order visual, audio, text (first maximum wins);
a modality without sessions has weighted score `0` and is selected only when
all three weighted scores are zero, in which case the pick defaults to
visual; and the pick is always one of the three modalities. -/
theorem c3_recommended_is_weighted_argmax (p : Perf3) (hn : p.Nonneg) :
    (∀ m, modeScore (p.get m) ≤ modeScore (p.get (rank p).bestMode))
    ∧ ((rank p).bestMode = Mode.audio →
        modeScore (p.get Mode.visual) < modeScore (p.get Mode.audio))
    ∧ ((rank p).bestMode = Mode.text →
        modeScore (p.get Mode.visual) < modeScore (p.get Mode.text)
        ∧ modeScore (p.get Mode.audio) < modeScore (p.get Mode.text))
    ∧ (∀ m, (p.get m).totalSessions = 0 → modeScore (p.get m) = 0)
    ∧ ((p.get (rank p).bestMode).totalSessions = 0 →
        (∀ m, modeScore (p.get m) = 0) ∧ (rank p).bestMode = Mode.visual)
    ∧ ((∀ m, modeScore (p.get m) = 0) → (rank p).bestMode = Mode.visual)
    ∧ ((rank p).bestMode = Mode.visual ∨ (rank p).bestMode = Mode.audio
        ∨ (rank p).bestMode = Mode.text) := by
  have nv := modeScore_nonneg p.visual hn.1
  have na := modeScore_nonneg p.audio hn.2.1
  have nt := modeScore_nonneg p.text hn.2.2
  rw [rank_closed p hn]
  dsimp only
  by_cases ht : modeScore p.text > max (modeScore p.visual) (modeScore p.audio)
  · obtain ⟨htv, hta⟩ := max_lt_iff.mp ht
    rw [if_pos ht]
    refine ⟨?_, ?_, ?_, ?_, ?_, ?_, ?_⟩
    · intro m; cases m <;> simp only [Perf3.get] <;> linarith
    · intro hcon; exact absurd hcon (by simp)
    · exact fun _ => ⟨htv, hta⟩
    · intro m hm
      cases m <;> exact modeScore_of_no_sessions _ hm
    · intro hzero
      have := modeScore_of_no_sessions (p.get Mode.text) hzero
      simp only [Perf3.get] at this
      linarith
    · intro hall
      have := hall Mode.text
      simp only [Perf3.get] at this
      linarith
    · exact Or.inr (Or.inr rfl)
  · rw [if_neg ht]
    have htle : modeScore p.text ≤ max (modeScore p.visual) (modeScore p.audio) :=
      not_lt.mp ht
    by_cases ha : modeScore p.audio > modeScore p.visual
    · rw [if_pos ha]
      have htle2 : modeScore p.text ≤ modeScore p.audio := by
        rw [max_eq_right ha.le] at htle; exact htle
      refine ⟨?_, ?_, ?_, ?_, ?_, ?_, ?_⟩
      · intro m; cases m <;> simp only [Perf3.get] <;> linarith
      · exact fun _ => ha
      · intro hcon; exact absurd hcon (by simp)
      · intro m hm
        cases m <;> exact modeScore_of_no_sessions _ hm
      · intro hzero
        have := modeScore_of_no_sessions (p.get Mode.audio) hzero
        simp only [Perf3.get] at this
        linarith
      · intro hall
        have := hall Mode.audio
        have hv := hall Mode.visual
        simp only [Perf3.get] at this hv
        exact absurd ha (by rw [this, hv]; exact lt_irrefl 0)
      · exact Or.inr (Or.inl rfl)
    · rw [if_neg ha]
      have hale : modeScore p.audio ≤ modeScore p.visual := not_lt.mp ha
      have htle2 : modeScore p.text ≤ modeScore p.visual := by
        rw [max_eq_left hale] at htle; exact htle
      refine ⟨?_, ?_, ?_, ?_, ?_, ?_, ?_⟩
      · intro m; cases m <;> simp only [Perf3.get] <;> linarith
      · intro hcon; exact absurd hcon (by simp)
      · intro hcon; exact absurd hcon (by simp)
      · intro m hm
        cases m <;> exact modeScore_of_no_sessions _ hm
      · intro hzero
        have hv0 := modeScore_of_no_sessions (p.get Mode.visual) hzero
        simp only [Perf3.get] at hv0
        refine ⟨?_, rfl⟩
        intro m
        cases m <;> simp only [Perf3.get] <;> linarith
      · exact fun _ => rfl
      · exact Or.inl rfl

/-- Witness for C3 at a concrete aggregated history: one audio record with a
positive score. -/
theorem c3_recommended_is_weighted_argmax_witness :
    (Perf3.Nonneg (aggregate [⟨some "audio", some 80, some 70, none, some 3⟩] []))
    ∧ modeScore ((aggregate [⟨some "audio", some 80, some 70, none, some 3⟩] []).get
          Mode.visual)
        ≤ modeScore ((aggregate [⟨some "audio", some 80, some 70, none, some 3⟩] []).get
          (rank (aggregate [⟨some "audio", some 80, some 70, none, some 3⟩] [])).bestMode) := by
  have hnn : Perf3.Nonneg (aggregate [⟨some "audio", some 80, some 70, none, some 3⟩] []) := by
    refine aggregate_nonneg _ _ ?_ ?_
    · intro a hm
      simp only [List.mem_singleton] at hm
      subst hm
      refine ⟨?_, ?_, ?_, ?_⟩ <;> norm_num [Activity.Nonneg]
    · intro q hm
      exact absurd hm (List.not_mem_nil q)
  exact ⟨hnn, (c3_recommended_is_weighted_argmax _ hnn).1 Mode.visual⟩

/-- C6 counterexample: one audio activity with quiz score 0 and focus 80.
All three modalities have zero average quiz score, yet `bestPerformingMode`
is audio (the weighted-composite winner), not the claimed default visual. -/
theorem c6_counterexample_zero_avg_not_visual :
    (recommendLearningMode
        (Except.ok [⟨some "audio", some 0, some 80, none, none⟩])
        (Except.ok [])).bestPerformingMode = Mode.audio
    ∧ avgScoreOf ((aggregate [⟨some "audio", some 0, some 80, none, none⟩] []).get
        Mode.visual) = 0
    ∧ avgScoreOf ((aggregate [⟨some "audio", some 0, some 80, none, none⟩] []).get
        Mode.audio) = 0
    ∧ avgScoreOf ((aggregate [⟨some "audio", some 0, some 80, none, none⟩] []).get
        Mode.text) = 0
    ∧ Mode.audio ≠ Mode.visual := by
  have h1 : modeOfString (resolveModeString (some "audio")) = some Mode.audio := by decide
  have h2 : activityEngagement Mode.audio ((none : Option ℚ).getD 0)
      ((none : Option ℚ).getD 0) ((some (80:ℚ)).getD 0) = 0 := by
    simp [activityEngagement]
  refine ⟨?_, ?_, ?_, ?_, by decide⟩ <;>
    (simp only [recommendLearningMode, aggregate, List.foldl_cons, List.foldl_nil,
      processActivity, processQuiz, h1, h2, Perf3.get, Perf3.set, Perf3.init,
      ModePerformance.init, rank, rankStep, pickBestPerforming, avgScoreOf];
     norm_num)

/-- C6 amended: `bestPerformingMode` is the modality with the highest average
quiz score (first maximum in the order visual, audio, text) whenever some
modality has a positive average; but when all three averages are zero it
falls back to `recommendedMode` (the weighted-composite winner), not to
visual. -/
theorem c6_amended_best_performing (p : Perf3) (hn : p.Nonneg) :
    ((∃ m, 0 < avgScoreOf (p.get m)) →
        (∀ m, avgScoreOf (p.get m) ≤ avgScoreOf (p.get (pickBestPerforming (rank p))))
        ∧ (pickBestPerforming (rank p) = Mode.audio →
            avgScoreOf (p.get Mode.visual) < avgScoreOf (p.get Mode.audio))
        ∧ (pickBestPerforming (rank p) = Mode.text →
            avgScoreOf (p.get Mode.visual) < avgScoreOf (p.get Mode.text)
            ∧ avgScoreOf (p.get Mode.audio) < avgScoreOf (p.get Mode.text)))
    ∧ ((∀ m, avgScoreOf (p.get m) = 0) →
        pickBestPerforming (rank p) = (rank p).bestMode) := by
  rw [pickBestPerforming, rank_closed p hn]
  dsimp only
  constructor
  · rintro ⟨m, hm⟩
    have hpos : 0 < max (max (avgScoreOf p.visual) (avgScoreOf p.audio))
        (avgScoreOf p.text) := by
      cases m <;> simp only [Perf3.get] at hm
      · exact lt_of_lt_of_le hm (le_trans (le_max_left _ _) (le_max_left _ _))
      · exact lt_of_lt_of_le hm (le_trans (le_max_right _ _) (le_max_left _ _))
      · exact lt_of_lt_of_le hm (le_max_right _ _)
    rw [if_pos hpos]
    by_cases ht : avgScoreOf p.text > max (avgScoreOf p.visual) (avgScoreOf p.audio)
    · obtain ⟨htv, hta⟩ := max_lt_iff.mp ht
      rw [if_pos ht]
      refine ⟨?_, ?_, fun _ => ⟨htv, hta⟩⟩
      · intro m'; cases m' <;> simp only [Perf3.get] <;> linarith
      · intro hcon; exact absurd hcon (by simp)
    · rw [if_neg ht]
      have htle := not_lt.mp ht
      by_cases ha : avgScoreOf p.audio > avgScoreOf p.visual
      · rw [if_pos ha]
        have h2 : avgScoreOf p.text ≤ avgScoreOf p.audio := by
          rw [max_eq_right ha.le] at htle; exact htle
        refine ⟨?_, fun _ => ha, ?_⟩
        · intro m'; cases m' <;> simp only [Perf3.get] <;> linarith
        · intro hcon; exact absurd hcon (by simp)
      · rw [if_neg ha]
        have hale := not_lt.mp ha
        have h2 : avgScoreOf p.text ≤ avgScoreOf p.visual := by
          rw [max_eq_left hale] at htle; exact htle
        refine ⟨?_, ?_, ?_⟩
        · intro m'; cases m' <;> simp only [Perf3.get] <;> linarith
        · intro hcon; exact absurd hcon (by simp)
        · intro hcon; exact absurd hcon (by simp)
  · intro hall
    have hv := hall Mode.visual
    have ha2 := hall Mode.audio
    have ht2 := hall Mode.text
    simp only [Perf3.get] at hv ha2 ht2
    rw [hv, ha2, ht2]
    norm_num

/-- Witness for C6's amended claim at a concrete aggregated history. -/
theorem c6_amended_best_performing_witness :
    Perf3.Nonneg (aggregate [⟨some "text", some 90, some 80, some 600, none⟩] [])
    ∧ 0 < avgScoreOf ((aggregate [⟨some "text", some 90, some 80, some 600, none⟩] []).get
        Mode.text)
    ∧ avgScoreOf ((aggregate [⟨some "text", some 90, some 80, some 600, none⟩] []).get
          Mode.audio)
        ≤ avgScoreOf ((aggregate [⟨some "text", some 90, some 80, some 600, none⟩] []).get
          (pickBestPerforming (rank (aggregate
            [⟨some "text", some 90, some 80, some 600, none⟩] [])))) := by
  have hmode : modeOfString (resolveModeString (some "text")) = some Mode.text := by decide
  have hnn : Perf3.Nonneg (aggregate [⟨some "text", some 90, some 80, some 600, none⟩] []) := by
    refine aggregate_nonneg _ _ ?_ ?_
    · intro a hm
      simp only [List.mem_singleton] at hm
      subst hm
      refine ⟨?_, ?_, ?_, ?_⟩ <;> norm_num [Activity.Nonneg]
    · intro q hm
      exact absurd hm (List.not_mem_nil q)
  have hpos : 0 < avgScoreOf ((aggregate
      [⟨some "text", some 90, some 80, some 600, none⟩] []).get Mode.text) := by
    norm_num [aggregate, processActivity, hmode, Perf3.get, Perf3.set, Perf3.init,
      ModePerformance.init, avgScoreOf, activityEngagement]
  exact ⟨hnn, hpos,
    ((c6_amended_best_performing _ hnn).1 ⟨Mode.text, hpos⟩).1 Mode.audio⟩

/-- C4 counterexample: a single visual activity whose numeric fields are all
zero.  The code returns confidence `0.73` (the `bestScore > 0 ? ... : 0.1`
fallback term), while the claim's formula — with `totalSessions = 1`,
`recommendedModeSessions = 1`, and the recommended modality's weighted score
`0` — gives `0.63`. -/
theorem c4_counterexample_zero_score_history :
    (recommendLearningMode
        (Except.ok [⟨some "visual", some 0, some 0, some 0, some 0⟩])
        (Except.ok [])).confidence = 73/100
    ∧ ((aggregate [⟨some "visual", some 0, some 0, some 0, some 0⟩] []).get
        (rank (aggregate [⟨some "visual", some 0, some 0, some 0, some 0⟩] [])).bestMode
        ).totalSessions = 1
    ∧ modeScore ((aggregate [⟨some "visual", some 0, some 0, some 0, some 0⟩] []).get
        (rank (aggregate [⟨some "visual", some 0, some 0, some 0, some 0⟩] [])).bestMode)
        = 0
    ∧ min (min (0.3 + (1:ℚ) * 0.01) 0.4 + min (0.3 + (1:ℚ) * 0.02) 0.4
        + min 0.2 ((0:ℚ) / 500)) 0.95 = 63/100
    ∧ (73:ℚ)/100 ≠ 63/100 := by
  have h1 : modeOfString (resolveModeString (some "visual")) = some Mode.visual := by decide
  have h2 : activityEngagement Mode.visual ((some (0:ℚ)).getD 0)
      ((some (0:ℚ)).getD 0) ((some (0:ℚ)).getD 0) = 0 := by
    simp [activityEngagement]
  refine ⟨?_, ?_, ?_, by norm_num, by norm_num⟩ <;>
    (simp only [recommendLearningMode, aggregate, List.foldl_cons, List.foldl_nil,
      processActivity, processQuiz, h1, h2, Perf3.get, Perf3.set, Perf3.init,
      ModePerformance.init, rank, rankStep, confidenceFrom, modeScore, List.length_cons,
      List.length_nil];
     norm_num)

/-- C4 amended: for every non-empty in-range history, the returned confidence
is `min(0.95, min(0.3 + totalSessions*0.01, 0.4) + min(0.3 +
recommendedModeSessions*0.02, 0.4) + S)` where `S = min(0.2, w/500)` when the
recommended modality's weighted score `w` is positive and `S = 0.1`
otherwise (the claim omitted the `0.1` fallback term). -/
theorem c4_amended_confidence (acts : List Activity) (qs : List QuizResult)
    (ha : ∀ a ∈ acts, a.Nonneg) (hq : ∀ q ∈ qs, q.Nonneg)
    (hne : ¬(acts = [] ∧ qs = [])) :
    (recommendLearningMode (Except.ok acts) (Except.ok qs)).confidence =
      min (min (0.3 + ((acts.length + qs.length : ℕ) : ℚ) * 0.01) 0.4
           + min (0.3 + ((((aggregate acts qs).get
                ((rank (aggregate acts qs)).bestMode)).totalSessions : ℕ) : ℚ) * 0.02) 0.4
           + (if modeScore ((aggregate acts qs).get ((rank (aggregate acts qs)).bestMode)) > 0
              then min 0.2 (modeScore ((aggregate acts qs).get
                ((rank (aggregate acts qs)).bestMode)) / 500)
              else 0.1)) 0.95 := by
  have hnn := aggregate_nonneg acts qs ha hq
  have hbs := rank_bestScore_eq _ hnn
  rw [recommendLearningMode.eq_def]
  dsimp only
  rw [if_neg (by simpa using hne)]
  dsimp only
  rw [confidenceFrom, hbs]

/-- Witness for C4's amended claim at a one-record history. -/
theorem c4_amended_confidence_witness :
    Activity.Nonneg ⟨some "visual", some 50, some 60, some 0, some 0⟩
    ∧ (recommendLearningMode
          (Except.ok [⟨some "visual", some 50, some 60, some 0, some 0⟩])
          (Except.ok [])).confidence =
        min (min (0.3 + ((([⟨some "visual", some 50, some 60, some 0, some 0⟩]
                : List Activity).length + ([] : List QuizResult).length : ℕ) : ℚ) * 0.01) 0.4
             + min (0.3 + ((((aggregate [⟨some "visual", some 50, some 60, some 0, some 0⟩] []).get
                  ((rank (aggregate [⟨some "visual", some 50, some 60, some 0, some 0⟩] [])).bestMode)
                  ).totalSessions : ℕ) : ℚ) * 0.02) 0.4
             + (if modeScore ((aggregate [⟨some "visual", some 50, some 60, some 0, some 0⟩] []).get
                  ((rank (aggregate [⟨some "visual", some 50, some 60, some 0, some 0⟩] [])).bestMode)) > 0
                then min 0.2 (modeScore ((aggregate [⟨some "visual", some 50, some 60, some 0, some 0⟩] []).get
                  ((rank (aggregate [⟨some "visual", some 50, some 60, some 0, some 0⟩] [])).bestMode)) / 500)
                else 0.1)) 0.95 := by
  refine ⟨by norm_num [Activity.Nonneg], ?_⟩
  refine c4_amended_confidence _ _ ?_ ?_ ?_
  · intro a hm
    simp only [List.mem_singleton] at hm
    subst hm
    refine ⟨?_, ?_, ?_, ?_⟩ <;> norm_num [Activity.Nonneg]
  · intro q hm
    exact absurd hm (List.not_mem_nil q)
  · intro hcon
    exact absurd hcon.1 (by simp)

/-- C5 counterexample: an activity record and a quiz result whose modality
string is the unrecognized non-empty `"kinesthetic"` are skipped entirely —
aggregation leaves every bucket zeroed (in particular the visual bucket's
session count stays `0`, where the claim demands `1`). -/
theorem c5_counterexample_unrecognized_dropped :
    aggregate [⟨some "kinesthetic", some 50, some 20, some 0, some 0⟩] [] = Perf3.init
    ∧ aggregate [] [⟨some "kinesthetic", some 75⟩] = Perf3.init
    ∧ ((aggregate [⟨some "kinesthetic", some 50, some 20, some 0, some 0⟩] []).get
        Mode.visual).totalSessions = 0 := by
  have h1 : modeOfString (resolveModeString (some "kinesthetic")) = none := by decide
  refine ⟨?_, ?_, ?_⟩ <;>
    simp only [aggregate, List.foldl_cons, List.foldl_nil, processActivity, processQuiz,
      h1, Perf3.get, Perf3.init, ModePerformance.init]

/-- C5 amended: a record with a *missing* (or empty) modality string is
resolved to visual and accumulated there — session count incremented and its
defaulted sums accumulated; but a record whose lowercased modality string is
any other unrecognized value misses the tally object and is skipped entirely,
accumulating into no bucket (and likewise for quiz results). -/
theorem c5_amended_modality_resolution (p : Perf3) (a b : Activity) (q r : QuizResult)
    (hdrop : modeOfString (resolveModeString a.activity_type) = none)
    (hqdrop : modeOfString (resolveModeString q.learning_type) = none)
    (hmiss : b.activity_type = none) (hrmiss : r.learning_type = none) :
    processActivity p a = p
    ∧ processQuiz p q = p
    ∧ (processActivity p b).visual.totalSessions = p.visual.totalSessions + 1
    ∧ (processActivity p b).visual.totalScore = p.visual.totalScore + b.quiz_score.getD 0
    ∧ (processActivity p b).visual.avgFocus = p.visual.avgFocus + b.focus_level.getD 0
    ∧ (processActivity p b).audio = p.audio
    ∧ (processActivity p b).text = p.text
    ∧ (processQuiz p r).visual.totalSessions = p.visual.totalSessions + 1
    ∧ (processQuiz p r).visual.totalScore = p.visual.totalScore + r.score.getD 0
    ∧ (processQuiz p r).audio = p.audio
    ∧ (processQuiz p r).text = p.text := by
  have hb : modeOfString (resolveModeString b.activity_type) = some Mode.visual := by
    rw [hmiss]; decide
  have hr : modeOfString (resolveModeString r.learning_type) = some Mode.visual := by
    rw [hrmiss]; decide
  refine ⟨?_, ?_, ?_, ?_, ?_, ?_, ?_, ?_, ?_, ?_, ?_⟩ <;>
    simp only [processActivity, processQuiz, hdrop, hqdrop, hb, hr, Perf3.set, Perf3.get]

/-- Witness for C5's amended claim: a `"kinesthetic"` record is dropped; a
record with a null modality is accumulated into the visual bucket. -/
theorem c5_amended_modality_resolution_witness :
    modeOfString (resolveModeString (some "kinesthetic")) = none
    ∧ processActivity Perf3.init ⟨some "kinesthetic", some 50, some 20, some 0, some 0⟩
        = Perf3.init
    ∧ (processActivity Perf3.init ⟨none, some 50, some 20, some 0, some 0⟩).visual.totalSessions
        = Perf3.init.visual.totalSessions + 1 := by
  have h1 : modeOfString (resolveModeString (some "kinesthetic")) = none := by decide
  have h := c5_amended_modality_resolution Perf3.init
    ⟨some "kinesthetic", some 50, some 20, some 0, some 0⟩
    ⟨none, some 50, some 20, some 0, some 0⟩
    ⟨some "kinesthetic", some 75⟩ ⟨none, some 75⟩
    h1 (by decide) rfl rfl
  exact ⟨h1, h.1, h.2.2.1⟩

/-- When every element maps to `some`, `filterMap` keeps the length. -/
theorem length_filterMap_of_isSome {α β : Type} (f : α → Option β) (l : List α)
    (h : ∀ a ∈ l, (f a).isSome) : (l.filterMap f).length = l.length := by
  induction l with
  | nil => rfl
  | cons a as ih =>
      rw [List.filterMap_cons]
      cases hfa : f a with
      | none =>
          have := h a (by simp)
          rw [hfa] at this
          exact absurd this (by simp)
      | some b =>
          rw [List.length_cons, ih (fun x hx => h x (by simp [hx])), List.length_cons]

/-- C9 counterexample: the most-recent-first score history
`[90, 85, 88, 82, 81]` (five records, each carrying a score).  The claim's
clamp formula gives `recentAvg = 426/5 = 85.2` with zero trend, but the code
returns the rounded value `85`. -/
theorem c9_counterexample_rounding :
    (predictPerformance (Except.ok (([90,85,88,82,81] : List ℚ).map
        (fun q => ⟨some "text", some q, none, none, none⟩)))).predictedScore = 85
    ∧ claimPredicted [90,85,88,82,81] = 426/5
    ∧ ((85 : ℚ) ≠ 426/5) := by
  refine ⟨?_, ?_, by norm_num⟩
  · norm_num [predictPerformance, jsRound, List.filterMap_cons]
  · norm_num [claimPredicted, claimRecentAvg, claimOlderAvg]

/-- C9 amended: fewer than five fetched records yield the fixed fallback
`{predictedScore: 65, confidence: 0.3}`; with five or more records whose quiz
scores are all present, the returned `predictedScore` is the claim's clamped
trend value *rounded to the nearest integer* (JS `Math.round`, which the
claim omitted), and the spot-check history `[90,85,88,82,80]` yields `85`. -/
theorem c9_amended_predictor (acts : List Activity)
    (h : ∀ a ∈ acts, (a.quiz_score).isSome) :
    (acts.length < 5 →
        (predictPerformance (Except.ok acts)).predictedScore = 65
        ∧ (predictPerformance (Except.ok acts)).confidence = 0.3)
    ∧ (5 ≤ acts.length →
        (predictPerformance (Except.ok acts)).predictedScore =
          ((jsRound (claimPredicted (acts.filterMap fun a => a.quiz_score))) : ℚ))
    ∧ (predictPerformance (Except.ok (([90,85,88,82,80] : List ℚ).map
        (fun q => ⟨some "text", some q, none, none, none⟩)))).predictedScore = 85 := by
  refine ⟨?_, ?_, ?_⟩
  · intro hlt
    rw [predictPerformance.eq_def]
    dsimp only
    rw [if_pos hlt]
    exact ⟨rfl, rfl⟩
  · intro hge
    have hlen : (acts.filterMap fun a => a.quiz_score).length = acts.length :=
      length_filterMap_of_isSome _ _ h
    have hne : (acts.filterMap fun a => a.quiz_score) ≠ [] := by
      intro hc
      rw [hc] at hlen
      simp only [List.length_nil] at hlen
      omega
    have hmin : min 5 (acts.filterMap fun a => a.quiz_score).length = 5 := by
      rw [hlen]; exact min_eq_left hge
    rw [predictPerformance.eq_def]
    dsimp only
    rw [if_neg (not_lt.mpr hge), if_neg (by simp [List.isEmpty_iff, hne])]
    dsimp only
    rw [claimPredicted, claimOlderAvg, claimRecentAvg, hmin]
    norm_num
  · norm_num [predictPerformance, jsRound, List.filterMap_cons]

/-- Witness for C9's amended claim on a six-record history. -/
theorem c9_amended_predictor_witness :
    5 ≤ (([95,90,85,88,82,80] : List ℚ).map
        (fun q => (⟨some "text", some q, none, none, none⟩ : Activity))).length
    ∧ (predictPerformance (Except.ok (([95,90,85,88,82,80] : List ℚ).map
          (fun q => ⟨some "text", some q, none, none, none⟩)))).predictedScore =
        ((jsRound (claimPredicted ((([95,90,85,88,82,80] : List ℚ).map
          (fun q => (⟨some "text", some q, none, none, none⟩ : Activity))).filterMap
            fun a => a.quiz_score))) : ℚ) := by
  have hsome : ∀ a ∈ (([95,90,85,88,82,80] : List ℚ).map
      (fun q => (⟨some "text", some q, none, none, none⟩ : Activity))),
      (a.quiz_score).isSome := by
    intro a ha
    simp only [List.mem_map] at ha
    obtain ⟨q, _, rfl⟩ := ha
    rfl
  exact ⟨by simp, (c9_amended_predictor _ hsome).2.1 (by simp)⟩

/-- C10: with at least five fetched activity records of which only one to
four carry a non-null quiz score, `predictPerformance` does *not* take the
insufficient-data fallback (it gates on the record count): it computes the
trend prediction over the short score list, dividing by the actual number of
non-null scores. -/
theorem c10_fallback_gated_on_record_count (acts : List Activity)
    (h5 : 5 ≤ acts.length)
    (hlo : 1 ≤ (acts.filterMap fun a => a.quiz_score).length)
    (hhi : (acts.filterMap fun a => a.quiz_score).length ≤ 4) :
    (predictPerformance (Except.ok acts)).predictedScore =
      ((jsRound (max 0 (min 100 ((acts.filterMap fun a => a.quiz_score).sum
          / (((acts.filterMap fun a => a.quiz_score).length : ℕ) : ℚ))))) : ℚ)
    ∧ (predictPerformance (Except.ok acts)).factors ≠ ["Insufficient historical data"] := by
  have hne : (acts.filterMap fun a => a.quiz_score) ≠ [] := by
    intro hc
    rw [hc] at hlo
    simp at hlo
  have hlen5 : (acts.filterMap fun a => a.quiz_score).length ≤ 5 :=
    le_trans hhi (by norm_num)
  have htake : (acts.filterMap fun a => a.quiz_score).take 5
      = acts.filterMap fun a => a.quiz_score := List.take_of_length_le hlen5
  have hmin : min 5 (acts.filterMap fun a => a.quiz_score).length
      = (acts.filterMap fun a => a.quiz_score).length := min_eq_right hlen5
  have hng : ¬((acts.filterMap fun a => a.quiz_score).length > 5) := by omega
  rw [predictPerformance.eq_def]
  dsimp only
  rw [if_neg (not_lt.mpr h5), if_neg (by simp [List.isEmpty_iff, hne])]
  constructor
  · dsimp only
    rw [htake, hmin, if_neg hng]
    congr 1
    congr 1
    congr 1
    ring_nf
  · dsimp only
    intro hcontra
    have := congrArg List.length hcontra
    simp at this

/-- Witness for C10: five records, two of them carrying scores 80 and 60. -/
theorem c10_fallback_gated_on_record_count_witness :
    5 ≤ ([⟨some "visual", some 80, none, none, none⟩,
          ⟨some "visual", some 60, none, none, none⟩,
          ⟨some "visual", none, none, none, none⟩,
          ⟨some "visual", none, none, none, none⟩,
          ⟨some "visual", none, none, none, none⟩] : List Activity).length
    ∧ (([⟨some "visual", some 80, none, none, none⟩,
          ⟨some "visual", some 60, none, none, none⟩,
          ⟨some "visual", none, none, none, none⟩,
          ⟨some "visual", none, none, none, none⟩,
          ⟨some "visual", none, none, none, none⟩] : List Activity).filterMap
        fun a => a.quiz_score).length ≤ 4
    ∧ (predictPerformance (Except.ok
        ([⟨some "visual", some 80, none, none, none⟩,
          ⟨some "visual", some 60, none, none, none⟩,
          ⟨some "visual", none, none, none, none⟩,
          ⟨some "visual", none, none, none, none⟩,
          ⟨some "visual", none, none, none, none⟩] : List Activity))).predictedScore =
      ((jsRound (max 0 (min 100
        ((([⟨some "visual", some 80, none, none, none⟩,
            ⟨some "visual", some 60, none, none, none⟩,
            ⟨some "visual", none, none, none, none⟩,
            ⟨some "visual", none, none, none, none⟩,
            ⟨some "visual", none, none, none, none⟩] : List Activity).filterMap
              fun a => a.quiz_score).sum
          / ((([⟨some "visual", some 80, none, none, none⟩,
              ⟨some "visual", some 60, none, none, none⟩,
              ⟨some "visual", none, none, none, none⟩,
              ⟨some "visual", none, none, none, none⟩,
              ⟨some "visual", none, none, none, none⟩] : List Activity).filterMap
                fun a => a.quiz_score).length : ℕ) : ℚ)))) : ℚ) := by
  refine ⟨by simp, by simp [List.filterMap_cons], ?_⟩
  exact (c10_fallback_gated_on_record_count _ (by simp)
    (by simp [List.filterMap_cons]) (by simp [List.filterMap_cons])).1

end MLServices
